import Mathlib

/-!
Verification of the incentive-based retention strategy simulator
(`retention_simulator.py`).

The core of the program is embedded shallowly:

* `load_data` — synthesizes the drop-off schedule when no CSV is uploaded
  (`np.linspace(10, 50, duration)` followed by `dropoff[2] = dropoff_month3`).
  The Python assignment `dropoff[2] = ...` raises `IndexError` when
  `duration < 3`; we model that failure as `none`.
* `simulate_scenario` — builds the learner trajectory month by month.
* `calculate_metrics` — derives gross revenue, incentive total and net
  revenue from a trajectory.
* `scenarios` / `metrics` — the three canonical scenarios exactly as the
  script assembles them, and the metrics computed for each.

Python floats are modelled as rationals (`ℚ`); the arithmetic involved is
a handful of multiplications and divisions by 100, exact in ℚ.  The one
float behaviour outside the model is `pandas.mean()` of an *empty* schedule,
which is `NaN` in Python; lemmas touching the mean therefore carry a
`df ≠ []` hypothesis.
-/

/-- Global simulation parameters, mirroring the sidebar inputs that the
Python functions read as module-level globals. -/
structure Params where
  initial_learners : ℚ
  duration : Nat
  incentive_month : Nat
  retention_boost : ℚ
  revenue_per_learner : ℚ
  incentive_cost : ℚ
deriving Repr

/-- Arithmetic mean of the schedule rates, `df[dropoff_rate].mean()`. -/
def dfMean (df : List ℚ) : ℚ := df.sum / (df.length : ℚ)

/-- Model of `np.linspace(a, b, n)`: `n` evenly spaced points from `a` to
`b` inclusive (`n = 1` gives `[a]`). -/
def linspace (a b : ℚ) (n : Nat) : List ℚ :=
  if n = 0 then []
  else if n = 1 then [a]
  else (List.range n).map (fun (i : Nat) => a + (b - a) * (i : ℚ) / ((n : ℚ) - 1))

/-- The no-upload branch of `load_data`: synthesize
`dropoff = np.linspace(10, 50, duration)` and then execute
`dropoff[2] = dropoff_month3`.  The assignment raises `IndexError`
when index 2 is out of bounds (`duration < 3`), modelled by `none`. -/
def load_data (duration : Nat) (dropoff_month3 : ℚ) : Option (List ℚ) :=
  let dropoff := linspace 10 50 duration
  if 2 < dropoff.length then some (dropoff.set 2 dropoff_month3) else none

/-- The rate read inside the simulation loop:
`df.loc[i, dropoff_rate] if i < len(df) else df[dropoff_rate].mean()`. -/
def rateFor (df : List ℚ) (i : Nat) : ℚ :=
  if i < df.length then df.getD i 0 else dfMean df

/-- The effective drop-off rate used at loop variable `i`: the looked-up
rate, reduced by the retention boost when this is the improved scenario and
`i + 1` (the 1-based month being computed) equals `incentive_month`. -/
def stepRate (p : Params) (df : List ℚ) (improved : Bool) (i : Nat) : ℚ :=
  let rate := rateFor df i
  if improved = true ∧ i + 1 = p.incentive_month
  then rate * (1 - p.retention_boost / 100) else rate

/-- One iteration of the loop body in `simulate_scenario`:
`retained = learners[-1] * (1 - rate / 100)`. -/
def simStep (p : Params) (df : List ℚ) (improved : Bool) (prev : ℚ) (i : Nat) : ℚ :=
  prev * (1 - stepRate p df improved i / 100)

/-- The learner count at 0-based position `i` of the trajectory:
position 0 holds `initial_learners`, position `i + 1` is produced by the
loop body with loop variable `i + 1`. -/
def traj (p : Params) (df : List ℚ) (improved : Bool) : Nat → ℚ
  | 0 => p.initial_learners
  | i + 1 => simStep p df improved (traj p df improved i) (i + 1)

/-- The function `simulate_scenario(df, improved)`: the list
`learners = [initial_learners]` extended by the loop
`for i in range(1, duration)`; its length is `max duration 1`
(a single-element list when `duration ≤ 1`). -/
def simulate_scenario (p : Params) (df : List ℚ) (improved : Bool) : List ℚ :=
  (List.range (max p.duration 1)).map (traj p df improved)

/-- The function `calculate_metrics(learners)`: returns
`(gross_revenue, incentive_total, net_revenue)`. -/
def calculate_metrics (p : Params) (learners : List ℚ) : ℚ × ℚ × ℚ :=
  let gross_revenue := (learners.map (fun l => l * p.revenue_per_learner)).sum
  let incentive_total :=
    if 1 ≤ p.incentive_month ∧ p.incentive_month ≤ learners.length
    then learners.getD (p.incentive_month - 1) 0 * p.incentive_cost else 0
  (gross_revenue, incentive_total, gross_revenue - incentive_total)

/-- The `scenarios` dict, in its fixed order:
Baseline (no incentive), Incentive no effect, Incentive improved retention. -/
def scenarios (p : Params) (df : List ℚ) : List ℚ × List ℚ × List ℚ :=
  (simulate_scenario p df false,
   simulate_scenario p df false,
   simulate_scenario p df true)

/-- The metrics loop: `calculate_metrics` applied to each of the scenario
trajectories, in scenario order. -/
def metrics (p : Params) (df : List ℚ) : (ℚ × ℚ × ℚ) × (ℚ × ℚ × ℚ) × (ℚ × ℚ × ℚ) :=
  (calculate_metrics p (scenarios p df).1,
   calculate_metrics p (scenarios p df).2.1,
   calculate_metrics p (scenarios p df).2.2)

/-- The concrete parameter set of the worked example in the spec:
`initial_learners=1000, duration=3, incentive_month=3, retention_boost=20,
revenue_per_learner=5, incentive_cost=5`. -/
def exampleParams : Params :=
  { initial_learners := 1000
    duration := 3
    incentive_month := 3
    retention_boost := 20
    revenue_per_learner := 5
    incentive_cost := 5 }

/-- The schedule rates `[10, 10, 30]` stated by the worked example in the spec. -/
def exampleSchedule : List ℚ := [10, 10, 30]

/-! ## Helper lemmas -/

theorem simulate_scenario_length (p : Params) (df : List ℚ) (b : Bool) :
    (simulate_scenario p df b).length = max p.duration 1 := by
  simp [simulate_scenario]

theorem simulate_scenario_getD (p : Params) (df : List ℚ) (b : Bool) (i : Nat)
    (h : i < max p.duration 1) :
    (simulate_scenario p df b).getD i 0 = traj p df b i := by
  rw [List.getD_eq_getElem]
  · simp [simulate_scenario]
  · simpa [simulate_scenario_length] using h

theorem dfMean_bounds (df : List ℚ) (hne : df ≠ [])
    (hb : ∀ r ∈ df, 0 ≤ r ∧ r ≤ 100) : 0 ≤ dfMean df ∧ dfMean df ≤ 100 := by
  have hlen : 0 < (df.length : ℚ) := by
    have : 0 < df.length := List.length_pos.mpr hne
    exact_mod_cast this
  constructor
  · exact div_nonneg (List.sum_nonneg fun x hx => (hb x hx).1) hlen.le
  · rw [dfMean, div_le_iff₀ hlen]
    have := List.sum_le_card_nsmul df 100 fun x hx => (hb x hx).2
    simpa [nsmul_eq_mul, mul_comm] using this

theorem rateFor_bounds (df : List ℚ) (i : Nat) (hne : df ≠ [])
    (hb : ∀ r ∈ df, 0 ≤ r ∧ r ≤ 100) : 0 ≤ rateFor df i ∧ rateFor df i ≤ 100 := by
  unfold rateFor
  split
  · rename_i h
    have hmem : df.getD i 0 ∈ df := by
      rw [List.getD_eq_getElem df 0 h]
      exact List.getElem_mem h
    exact hb _ hmem
  · exact dfMean_bounds df hne hb

theorem stepRate_bounds (p : Params) (df : List ℚ) (improved : Bool) (i : Nat)
    (hne : df ≠ []) (hb : ∀ r ∈ df, 0 ≤ r ∧ r ≤ 100)
    (hb0 : 0 ≤ p.retention_boost) (hb100 : p.retention_boost ≤ 100) :
    0 ≤ stepRate p df improved i ∧ stepRate p df improved i ≤ 100 := by
  obtain ⟨hr0, hr100⟩ := rateFor_bounds df i hne hb
  unfold stepRate
  split
  · have hf0 : 0 ≤ 1 - p.retention_boost / 100 := by linarith
    have hf1 : 1 - p.retention_boost / 100 ≤ 1 := by linarith
    constructor
    · exact mul_nonneg hr0 hf0
    · calc rateFor df i * (1 - p.retention_boost / 100)
          ≤ rateFor df i * 1 := mul_le_mul_of_nonneg_left hf1 hr0
        _ = rateFor df i := mul_one _
        _ ≤ 100 := hr100
  · exact ⟨hr0, hr100⟩

theorem traj_nonneg (p : Params) (df : List ℚ) (improved : Bool) (i : Nat)
    (hne : df ≠ []) (hb : ∀ r ∈ df, 0 ≤ r ∧ r ≤ 100)
    (hb0 : 0 ≤ p.retention_boost) (hb100 : p.retention_boost ≤ 100)
    (hinit : 0 ≤ p.initial_learners) : 0 ≤ traj p df improved i := by
  induction i with
  | zero => exact hinit
  | succ n ih =>
    obtain ⟨hs0, hs100⟩ := stepRate_bounds p df improved (n + 1) hne hb hb0 hb100
    have : 0 ≤ 1 - stepRate p df improved (n + 1) / 100 := by linarith
    exact mul_nonneg ih this

theorem traj_step_le (p : Params) (df : List ℚ) (improved : Bool) (i : Nat)
    (hne : df ≠ []) (hb : ∀ r ∈ df, 0 ≤ r ∧ r ≤ 100)
    (hb0 : 0 ≤ p.retention_boost) (hb100 : p.retention_boost ≤ 100)
    (hinit : 0 ≤ p.initial_learners) :
    traj p df improved (i + 1) ≤ traj p df improved i := by
  obtain ⟨hs0, hs100⟩ := stepRate_bounds p df improved (i + 1) hne hb hb0 hb100
  have hprev := traj_nonneg p df improved i hne hb hb0 hb100 hinit
  have hf1 : 1 - stepRate p df improved (i + 1) / 100 ≤ 1 := by linarith
  calc traj p df improved (i + 1)
      = traj p df improved i * (1 - stepRate p df improved (i + 1) / 100) := rfl
    _ ≤ traj p df improved i * 1 := mul_le_mul_of_nonneg_left hf1 hprev
    _ = traj p df improved i := mul_one _

theorem stepRate_false (p : Params) (df : List ℚ) (i : Nat) :
    stepRate p df false i = rateFor df i := by
  simp [stepRate]

theorem traj_false_le_true (p : Params) (df : List ℚ) (i : Nat)
    (hne : df ≠ []) (hb : ∀ r ∈ df, 0 ≤ r ∧ r ≤ 100)
    (hb0 : 0 ≤ p.retention_boost) (hb100 : p.retention_boost ≤ 100)
    (hinit : 0 ≤ p.initial_learners) :
    traj p df false i ≤ traj p df true i := by
  induction i with
  | zero => exact le_refl _
  | succ n ih =>
    have hprevT := traj_nonneg p df true n hne hb hb0 hb100 hinit
    obtain ⟨hsF0, hsF100⟩ := stepRate_bounds p df false (n + 1) hne hb hb0 hb100
    obtain ⟨hsT0, hsT100⟩ := stepRate_bounds p df true (n + 1) hne hb hb0 hb100
    have hrate : stepRate p df true (n + 1) ≤ stepRate p df false (n + 1) := by
      obtain ⟨hr0, hr100⟩ := rateFor_bounds df (n + 1) hne hb
      rw [stepRate_false]
      unfold stepRate
      split
      · have hf1 : 1 - p.retention_boost / 100 ≤ 1 := by linarith
        calc rateFor df (n + 1) * (1 - p.retention_boost / 100)
            ≤ rateFor df (n + 1) * 1 := mul_le_mul_of_nonneg_left hf1 hr0
          _ = rateFor df (n + 1) := mul_one _
      · exact le_refl _
    have hfF : 0 ≤ 1 - stepRate p df false (n + 1) / 100 := by linarith
    have hfle : 1 - stepRate p df false (n + 1) / 100 ≤
        1 - stepRate p df true (n + 1) / 100 := by linarith
    calc traj p df false (n + 1)
        = traj p df false n * (1 - stepRate p df false (n + 1) / 100) := rfl
      _ ≤ traj p df true n * (1 - stepRate p df false (n + 1) / 100) :=
          mul_le_mul_of_nonneg_right ih hfF
      _ ≤ traj p df true n * (1 - stepRate p df true (n + 1) / 100) :=
          mul_le_mul_of_nonneg_left hfle hprevT
      _ = traj p df true (n + 1) := rfl

theorem linspace_length (a b : ℚ) (n : Nat) : (linspace a b n).length = n := by
  unfold linspace
  split
  · simp_all
  · split
    · simp_all
    · rw [List.length_map, List.length_range]

/-! ## Claim theorems -/

/-- Claim C1 (refuted by the code): contrary to the claim, the Baseline
scenario IS charged the incentive cost — the metrics loop applies the same
`calculate_metrics` to every scenario.  At the worked example of the spec the
Baseline metrics are gross 12650, incentive 3150 (≠ 0), net 9500 (≠ gross),
and the Baseline and "Incentive, no effect" metrics are entirely identical,
so their "only metric difference" is no difference at all. -/
theorem baseline_scenario_is_charged_incentive :
    (metrics exampleParams exampleSchedule).1 = (12650, 3150, 9500) ∧
    ((metrics exampleParams exampleSchedule).1).2.1 ≠ 0 ∧
    ((metrics exampleParams exampleSchedule).1).2.2 ≠
      ((metrics exampleParams exampleSchedule).1).1 ∧
    (metrics exampleParams exampleSchedule).1 =
      (metrics exampleParams exampleSchedule).2.1 := by
  refine ⟨?_, ?_, ?_, rfl⟩ <;>
    norm_num [metrics, calculate_metrics, scenarios, simulate_scenario, traj,
      simStep, stepRate, rateFor, exampleParams, exampleSchedule, List.range_succ]

/-- Claim C2: the worked example of the spec, computed exactly: Baseline
trajectory `[1000, 900, 630]` with gross revenue 12650; improved-retention
trajectory `[1000, 900, 684]` with metrics gross 12920, incentive
3420 = 684 × 5 (from the month-3 count of this very scenario), net 9500. -/
theorem worked_example_exact :
    (scenarios exampleParams exampleSchedule).1 = [1000, 900, 630] ∧
    ((metrics exampleParams exampleSchedule).1).1 = 12650 ∧
    (scenarios exampleParams exampleSchedule).2.2 = [1000, 900, 684] ∧
    (metrics exampleParams exampleSchedule).2.2 = (12920, 3420, 9500) := by
  refine ⟨?_, ?_, ?_, ?_⟩ <;>
    norm_num [metrics, calculate_metrics, scenarios, simulate_scenario, traj,
      simStep, stepRate, rateFor, exampleParams, exampleSchedule, List.range_succ]

/-- Claim C3 (code bug): `load_data` is NOT total for every positive
duration — the override `dropoff[2] = dropoff_month3` raises `IndexError`
(modelled as `none`) for durations 1 and 2, while for duration 3 the
synthesized schedule is `linspace 10 50 3 = [10, 30, 50]` with index 2
overridden to the month-3 value 30, giving `[10, 30, 30]`. -/
theorem load_data_raises_for_short_durations :
    load_data 1 30 = none ∧ load_data 2 30 = none ∧
    load_data 3 30 = some [10, 30, 30] := by
  refine ⟨?_, ?_, ?_⟩ <;> norm_num [load_data, linspace, List.range_succ]

/-- Claim C4: for every schedule of in-range rates (and in-range boost,
non-negative initial cohort), every trajectory entry is non-negative and the
trajectory is monotonically non-increasing: `0 ≤ trajectory[i+1] ≤
trajectory[i]`.  The `df ≠ []` hypothesis excludes the empty schedule, whose
Python mean is `NaN`; the data model of the spec requires one entry per month. -/
theorem trajectory_nonneg_monotone (p : Params) (df : List ℚ) (improved : Bool)
    (hne : df ≠ []) (hb : ∀ r ∈ df, 0 ≤ r ∧ r ≤ 100)
    (hb0 : 0 ≤ p.retention_boost) (hb100 : p.retention_boost ≤ 100)
    (hinit : 0 ≤ p.initial_learners) (i : Nat)
    (h : i < (simulate_scenario p df improved).length) :
    0 ≤ (simulate_scenario p df improved).getD i 0 ∧
    (i + 1 < (simulate_scenario p df improved).length →
      (simulate_scenario p df improved).getD (i + 1) 0 ≤
        (simulate_scenario p df improved).getD i 0) := by
  rw [simulate_scenario_length] at h
  constructor
  · rw [simulate_scenario_getD p df improved i h]
    exact traj_nonneg p df improved i hne hb hb0 hb100 hinit
  · intro h2
    rw [simulate_scenario_length] at h2
    rw [simulate_scenario_getD p df improved (i + 1) h2,
        simulate_scenario_getD p df improved i h]
    exact traj_step_le p df improved i hne hb hb0 hb100 hinit

/-- Claim C5: the Baseline scenario and the "Incentive, no effect" scenario
hold identical trajectories for any parameters and any schedule — both are
`simulate_scenario(data, improved=False)`. -/
theorem baseline_eq_no_effect_trajectory (p : Params) (df : List ℚ) :
    (scenarios p df).1 = (scenarios p df).2.1 := rfl

/-- Claim C6: with a positive retention boost (and in-range rates and boost,
non-negative initial cohort), the improved-retention trajectory dominates the
Baseline trajectory at every month from `incentive_month` onward. -/
theorem improved_ge_baseline (p : Params) (df : List ℚ)
    (hne : df ≠ []) (hb : ∀ r ∈ df, 0 ≤ r ∧ r ≤ 100)
    (hbpos : 0 < p.retention_boost) (hb100 : p.retention_boost ≤ 100)
    (hinit : 0 ≤ p.initial_learners) (i : Nat)
    (hm : p.incentive_month ≤ i + 1)
    (h : i < (simulate_scenario p df true).length) :
    (simulate_scenario p df false).getD i 0 ≤
      (simulate_scenario p df true).getD i 0 := by
  rw [simulate_scenario_length] at h
  rw [simulate_scenario_getD p df false i h, simulate_scenario_getD p df true i h]
  exact traj_false_le_true p df i hne hb hbpos.le hb100 hinit

/-- Claim C7: `incentive_total` is 0 whenever `incentive_month` lies outside
`[1, len(learners)]`; otherwise it is the 1-based trajectory entry at
`incentive_month` times `incentive_cost`, and the 0-based lookup index
`incentive_month - 1` is provably in range (the lookup never raises). -/
theorem incentive_total_guarded (p : Params) (learners : List ℚ) :
    (¬ (1 ≤ p.incentive_month ∧ p.incentive_month ≤ learners.length) →
      (calculate_metrics p learners).2.1 = 0) ∧
    (1 ≤ p.incentive_month → p.incentive_month ≤ learners.length →
      p.incentive_month - 1 < learners.length ∧
      (calculate_metrics p learners).2.1 =
        learners.getD (p.incentive_month - 1) 0 * p.incentive_cost) := by
  constructor
  · intro h
    simp [calculate_metrics, h]
  · intro h1 h2
    refine ⟨by omega, ?_⟩
    simp [calculate_metrics, h1, h2]

/-- Claim C8: when the lookup index for a simulation step falls at or beyond
the length of the schedule, the rate for that step is the arithmetic mean of
the schedule rates (still subject to the incentive-month boost in the improved
scenario).  `df ≠ []` excludes the empty schedule, whose Python mean is NaN. -/
theorem mean_fallback_beyond_schedule (p : Params) (df : List ℚ)
    (improved : Bool) (i : Nat) (hne : df ≠ []) (hlen : df.length ≤ i + 1)
    (h : i + 1 < (simulate_scenario p df improved).length) :
    (simulate_scenario p df improved).getD (i + 1) 0 =
      (simulate_scenario p df improved).getD i 0 *
        (1 - (if improved = true ∧ i + 2 = p.incentive_month
              then dfMean df * (1 - p.retention_boost / 100)
              else dfMean df) / 100) := by
  rw [simulate_scenario_length] at h
  rw [simulate_scenario_getD p df improved (i + 1) h,
      simulate_scenario_getD p df improved i (by omega)]
  have hnot : ¬ (i + 1 < df.length) := by omega
  show simStep p df improved (traj p df improved i) (i + 1) = _
  simp only [simStep, stepRate, rateFor, if_neg hnot]

/-- Claim C9: when `incentive_month = 1` the improved-retention trajectory
coincides with the Baseline trajectory for every schedule and boost (the
boost condition `i + 1 == incentive_month` of the loop is never met for loop
variables ≥ 1), while the `incentive_total` of the improved scenario is still
charged on the full initial cohort: `initial_learners × incentive_cost`. -/
theorem month_one_incentive_no_trajectory_change (p : Params) (df : List ℚ)
    (hm : p.incentive_month = 1) :
    simulate_scenario p df true = simulate_scenario p df false ∧
    (calculate_metrics p (simulate_scenario p df true)).2.1 =
      p.initial_learners * p.incentive_cost := by
  have htraj : ∀ i, traj p df true i = traj p df false i := by
    intro i
    induction i with
    | zero => rfl
    | succ n ih =>
      show simStep p df true (traj p df true n) (n + 1) =
        simStep p df false (traj p df false n) (n + 1)
      rw [ih]
      unfold simStep stepRate
      rw [if_neg (by omega), if_neg (by simp)]
  constructor
  · unfold simulate_scenario
    exact List.map_congr_left fun i _ => htraj i
  · have hlen : 1 ≤ (simulate_scenario p df true).length := by
      rw [simulate_scenario_length]; omega
    have hget : (simulate_scenario p df true).getD 0 0 = p.initial_learners := by
      rw [simulate_scenario_getD p df true 0 (by omega)]; rfl
    simp only [calculate_metrics, hm]
    rw [if_pos ⟨le_refl 1, hlen⟩]
    simpa using congrArg (fun x => x * p.incentive_cost) hget

/-- Claim C10: a schedule at least `duration` long makes every in-loop rate
lookup in-range, so the mean-fallback branch is never taken; and every
successfully synthesized schedule has exactly `duration` entries. -/
theorem covering_schedule_never_falls_back :
    (∀ (p : Params) (df : List ℚ) (i : Nat), p.duration ≤ df.length →
      1 ≤ i → i < p.duration → i < df.length ∧ rateFor df i = df.getD i 0) ∧
    (∀ (d : Nat) (r : ℚ) (sched : List ℚ), load_data d r = some sched →
      sched.length = d) := by
  constructor
  · intro p df i hcov h1 h2
    have hin : i < df.length := by omega
    exact ⟨hin, by simp [rateFor, hin]⟩
  · intro d r sched h
    unfold load_data at h
    dsimp only at h
    split at h
    · have := Option.some.inj h
      rw [← this, List.length_set, linspace_length]
    · exact Option.noConfusion h

/-! ## Witnesses -/

theorem trajectory_nonneg_monotone_witness :
    0 ≤ (simulate_scenario exampleParams exampleSchedule false).getD 1 0 ∧
    (1 + 1 < (simulate_scenario exampleParams exampleSchedule false).length →
      (simulate_scenario exampleParams exampleSchedule false).getD (1 + 1) 0 ≤
        (simulate_scenario exampleParams exampleSchedule false).getD 1 0) :=
  trajectory_nonneg_monotone exampleParams exampleSchedule false
    (by simp [exampleSchedule]) (by norm_num [exampleSchedule])
    (by norm_num [exampleParams]) (by norm_num [exampleParams])
    (by norm_num [exampleParams]) 1
    (by rw [simulate_scenario_length]; norm_num [exampleParams])

theorem improved_ge_baseline_witness :
    (simulate_scenario exampleParams exampleSchedule false).getD 2 0 ≤
      (simulate_scenario exampleParams exampleSchedule true).getD 2 0 :=
  improved_ge_baseline exampleParams exampleSchedule
    (by simp [exampleSchedule]) (by norm_num [exampleSchedule])
    (by norm_num [exampleParams]) (by norm_num [exampleParams])
    (by norm_num [exampleParams]) 2
    (by norm_num [exampleParams])
    (by rw [simulate_scenario_length]; norm_num [exampleParams])

theorem incentive_total_guarded_witness :
    (calculate_metrics exampleParams [1000]).2.1 = 0 ∧
    (exampleParams.incentive_month - 1 < ([1000, 900, 630] : List ℚ).length ∧
      (calculate_metrics exampleParams [1000, 900, 630]).2.1 =
        ([1000, 900, 630] : List ℚ).getD (exampleParams.incentive_month - 1) 0 *
          exampleParams.incentive_cost) :=
  ⟨(incentive_total_guarded exampleParams [1000]).1 (by norm_num [exampleParams]),
   (incentive_total_guarded exampleParams [1000, 900, 630]).2
     (by norm_num [exampleParams]) (by norm_num [exampleParams])⟩

theorem mean_fallback_beyond_schedule_witness :
    (simulate_scenario exampleParams [10] false).getD (1 + 1) 0 =
      (simulate_scenario exampleParams [10] false).getD 1 0 *
        (1 - (if false = true ∧ 1 + 2 = exampleParams.incentive_month
              then dfMean [10] * (1 - exampleParams.retention_boost / 100)
              else dfMean [10]) / 100) :=
  mean_fallback_beyond_schedule exampleParams [10] false 1 (by simp)
    (by norm_num) (by rw [simulate_scenario_length]; norm_num [exampleParams])

/-- The worked-example parameters with the incentive moved to month 1. -/
def monthOneParams : Params := { exampleParams with incentive_month := 1 }

theorem month_one_incentive_witness :
    simulate_scenario monthOneParams exampleSchedule true =
      simulate_scenario monthOneParams exampleSchedule false ∧
    (calculate_metrics monthOneParams
        (simulate_scenario monthOneParams exampleSchedule true)).2.1 =
      monthOneParams.initial_learners * monthOneParams.incentive_cost :=
  month_one_incentive_no_trajectory_change monthOneParams exampleSchedule rfl

theorem covering_schedule_never_falls_back_witness :
    (1 < ([10, 10, 30] : List ℚ).length ∧
      rateFor [10, 10, 30] 1 = ([10, 10, 30] : List ℚ).getD 1 0) ∧
    ([10, 30, 30] : List ℚ).length = 3 :=
  ⟨covering_schedule_never_falls_back.1 exampleParams [10, 10, 30] 1
      (by norm_num [exampleParams]) (le_refl 1) (by norm_num [exampleParams]),
   covering_schedule_never_falls_back.2 3 30 [10, 30, 30]
      (by norm_num [load_data, linspace, List.range_succ])⟩
